import Mathlib

set_option maxRecDepth 10000

/-!
Verification of `src/event_checker.py`: a script that polls the
Ticketmaster discovery API for one artist, diffs the fetched event ids
against a persisted known-event set, emails a summary of new events, and
overwrites the persisted set.

The Python code is shallowly embedded: dictionaries fetched from JSON
become structures with `Option` fields (a `none` field models a missing
key), the persisted JSON file becomes `Option (List String)` (`none`
models a missing file), Python sets of strings become `Finset String`,
and exceptions become an `Except`-valued outcome.  Network and SMTP
effects are oracles carried in a `World` value.
-/

namespace EventChecker

/-- A venue object from the API response: `name` and `city.name`,
each possibly missing. -/
structure Venue where
  name : Option String
  cityName : Option String
deriving DecidableEq, Repr

/-- An event object from the API response.  `id` is always present (the
script indexes `event["id"]` unconditionally); the remaining fields are
read with `.get` and may be absent.  `localDate` stands for the path
`dates.start.localDate`; `venues` stands for `_embedded.venues`
(`none` when either key is missing, `some l` for the list of venues). -/
structure Event where
  id : String
  name : Option String
  url : Option String
  localDate : Option String
  venues : Option (List Venue)
deriving DecidableEq, Repr

/-- Python truthiness of an environment variable: `None` and the empty
string are falsy. -/
def truthy : Option String → Bool
  | none => false
  | some s => !s.isEmpty

/-- The environment-supplied configuration read at module load:
`TICKETMASTER_API_KEY`, `GMAIL_USER`, `GMAIL_APP_PASSWORD`,
`RECIPIENTS`. -/
structure Config where
  apiKey : Option String
  gmailUser : Option String
  gmailAppPassword : Option String
  recipients : Option String
deriving DecidableEq, Repr

/-- Outcome of the HTTP GET in `get_artist_events`.  `httpError` covers
any transport error or non-2xx status (`raise_for_status`).  On success
the body is JSON; `ok none` models a body without the `_embedded` key,
`ok (some none)` a body whose `_embedded` lacks the `events` key, and
`ok (some (some evs))` a body with the nested events list. -/
inductive ApiResponse where
  | httpError
  | ok (embedded : Option (Option (List Event)))
deriving DecidableEq, Repr

/-- The external world a single run interacts with: the persisted
`known_events.json` file (`none` when missing, otherwise the JSON array
of id strings), the event-source response, and whether the SMTP
login/send succeeds. -/
structure World where
  store : Option (List String)
  resp : ApiResponse
  smtpOk : Bool
deriving DecidableEq, Repr

/-- Uncaught exceptions a run can end with, mirroring §7 of the spec:
`configError` is the `ValueError` for a missing API key, `sourceError`
the propagated `requests` exception, `credsError` the `ValueError` for
missing mail credentials, `smtpError` a propagated `SMTPException`, and
`indexError` the `IndexError` from indexing an empty `venues` list. -/
inductive RunError where
  | configError
  | sourceError
  | credsError
  | smtpError
  | indexError
deriving DecidableEq, Repr

/-- `load_known_events`: read the JSON array from `DB_FILE` as a set, or
return the empty set when the file is missing
(`except FileNotFoundError`). -/
def load_known_events (file : Option (List String)) : Finset String :=
  match file with
  | none => ∅
  | some l => l.toFinset

/-- `save_known_events`: overwrite `DB_FILE` with `list(event_ids)`.
Python enumerates the set in an unspecified order; we pick the sorted
enumeration as the representative (round-trip theorems quantify over
permutations of it, so no result depends on this choice). -/
def save_known_events (event_ids : Finset String) : Option (List String) :=
  some (event_ids.sort (· ≤ ·))

/-- `get_artist_events`: raise on transport/HTTP failure, otherwise
return `data.get("_embedded", {}).get("events", [])`. -/
def get_artist_events (resp : ApiResponse) : Except RunError (List Event) :=
  match resp with
  | .httpError => .error .sourceError
  | .ok none => .ok []
  | .ok (some none) => .ok []
  | .ok (some (some evs)) => .ok evs

/-- Python `str.split(",")`: cut the string at every comma, keeping
empty pieces. -/
def pySplitCommaAux : List Char → List Char → List String
  | [], acc => [String.mk acc.reverse]
  | c :: cs, acc =>
    if c = ',' then String.mk acc.reverse :: pySplitCommaAux cs []
    else pySplitCommaAux cs (c :: acc)

/-- Python `str.split(",")` on a whole string. -/
def pySplitComma (s : String) : List String := pySplitCommaAux s.data []

/-- Python `str.strip()`: drop whitespace from both ends. -/
def pyStrip (s : String) : String :=
  String.mk (((s.data.dropWhile Char.isWhitespace).reverse.dropWhile
      Char.isWhitespace).reverse)

/-- Python rendering of a value read with `.get(key)` (no default)
inside an f-string: a missing key prints as the string `None`. -/
def pyStr (o : Option String) : String := o.getD "None"

/-- The per-event detail block built in the loop of `notify_email`.
Venue lookup follows `event.get("_embedded", {}).get("venues", [{}])[0]`:
a missing key yields the default `[{}]` whose first element is the empty
dict, while a present but empty list makes `[0]` raise `IndexError`
(modelled as `none`). -/
def eventDetails (event : Event) : Option String :=
  let venue_info : Option Venue :=
    match event.venues with
    | none => some ⟨none, none⟩
    | some l => l.head?
  match venue_info with
  | none => none
  | some v => some
      ("----------------------------------------\n" ++
       "Event: " ++ pyStr event.name ++ "\n" ++
       "Date: " ++ event.localDate.getD "N/A" ++ "\n" ++
       "Venue: " ++ v.name.getD "N/A" ++ " in " ++ v.cityName.getD "N/A" ++ "\n" ++
       "Link: " ++ pyStr event.url ++ "\n")

/-- The `plural_s` suffix: `"s" if num_events > 1 else ""`. -/
def plural_s (num_events : Nat) : String := if num_events > 1 then "s" else ""

/-- The greeting line opening the email body. -/
def bodyHeader (num_events : Nat) : String :=
  "Hello! " ++ toString num_events ++ " new event" ++ plural_s num_events ++
    " have been added for your tracked artist:\n"

/-- The subject line of the notification email. -/
def subjectLine (num_events : Nat) : String :=
  "Masayoshi Takanaka added " ++ toString num_events ++ " new concert" ++
    plural_s num_events ++ "!"

/-- A sent email: subject, plain-text body, and the recipient list
obtained by splitting `RECIPIENTS` on commas and stripping whitespace. -/
structure EmailMsg where
  subject : String
  body : String
  recipients : List String
deriving DecidableEq, Repr

/-- `notify_email`: raise `ValueError` when any of the mail credentials
is falsy; otherwise build the subject and body (the per-event loop can
raise `IndexError`), then log in and send over SMTP, propagating an
`SMTPException` on failure.  On success the sent message is returned. -/
def notify_email (cfg : Config) (smtpOk : Bool) (events : List Event) :
    Except RunError EmailMsg :=
  if ¬ (truthy cfg.gmailUser ∧ truthy cfg.gmailAppPassword ∧ truthy cfg.recipients) then
    .error .credsError
  else
    match events.mapM eventDetails with
    | none => .error .indexError
    | some details =>
      let body := String.intercalate "\n" (bodyHeader events.length :: details)
      if smtpOk then
        .ok ⟨subjectLine events.length, body,
             (pySplitComma (cfg.recipients.getD "")).map pyStrip⟩
      else
        .error .smtpError

/-- The diff of line 34 of the script:
`new_event_ids = current_event_ids - known_event_ids`. -/
def newIds (current known : Finset String) : Finset String := current \ known

/-- The state of the world after a run of `main`: the result (normal
completion or the uncaught exception), the persisted file, and the list
of emails that were actually sent. -/
structure RunOutcome where
  result : Except RunError Unit
  store : Option (List String)
  sent : List EmailMsg
deriving Repr

/-- `main`: check the API key, load the known set, fetch current events,
diff, notify when the diff is non-empty, then save the current ids.
An uncaught exception at any step leaves the file as it was. -/
def runMain (cfg : Config) (w : World) : RunOutcome :=
  if ¬ truthy cfg.apiKey then ⟨.error .configError, w.store, []⟩
  else
    let known_event_ids := load_known_events w.store
    match get_artist_events w.resp with
    | .error e => ⟨.error e, w.store, []⟩
    | .ok current_events =>
      let current_event_ids := (current_events.map (·.id)).toFinset
      let new_event_ids := newIds current_event_ids known_event_ids
      if new_event_ids = ∅ then
        ⟨.ok (), save_known_events current_event_ids, []⟩
      else
        let new_events := current_events.filter (fun e => decide (e.id ∈ new_event_ids))
        match notify_email cfg w.smtpOk new_events with
        | .error e => ⟨.error e, w.store, []⟩
        | .ok msg => ⟨.ok (), save_known_events current_event_ids, [msg]⟩

/-! ### Concrete fixtures used by scenario theorems and witnesses -/

/-- A fetched event with id `A` and full details. -/
def eventA : Event :=
  ⟨"A", some "Show A", some "http://tm/a", some "2026-01-01",
   some [⟨some "Hall A", some "Tokyo"⟩]⟩

/-- A fetched event with id `B` whose optional fields are all missing. -/
def eventB : Event := ⟨"B", some "Show B", some "http://tm/b", none, none⟩

/-- A configuration with the API key and every mail credential set. -/
def cfgFull : Config :=
  ⟨some "key", some "user@gmail.com", some "pw", some "r1@x.com, r2@y.com"⟩

/-- A configuration with the API key set and all mail credentials unset. -/
def cfgNoMail : Config := ⟨some "key", none, none, none⟩

/-- World for the spec scenario: store holds `{A}`, the fetch returns
events `A` and `B`, SMTP works. -/
def worldAB : World := ⟨some ["A"], .ok (some (some [eventA, eventB])), true⟩

/-- World where the store holds `{A}` but the fetch returns an empty
events list. -/
def worldEmptyFetch : World := ⟨some ["A"], .ok (some (some [])), true⟩

/-! ### Helper lemmas -/

/-- Saving a set and loading it back restores that set. -/
lemma load_known_events_save (s : Finset String) :
    load_known_events (save_known_events s) = s := by
  simp [load_known_events, save_known_events, Finset.sort_toFinset]

/-- The concrete serialization of the set `{A, B}`. -/
lemma save_AB : save_known_events {"A", "B"} = some ["A", "B"] := by
  unfold save_known_events
  rw [show ({"A", "B"} : Finset String) = insert "A" {"B"} from rfl,
    Finset.sort_insert, Finset.sort_singleton]
  · intro b hb
    have : b = "B" := by simpa using hb
    subst this
    rw [String.le_iff_toList_le]
    decide
  · decide

/-- Reading `runMain` under a truthy API key and a successful fetch. -/
lemma runMain_ok_fetch (cfg : Config) (w : World) (events : List Event)
    (h1 : truthy cfg.apiKey = true)
    (h2 : get_artist_events w.resp = .ok events) :
    runMain cfg w =
      (let known_event_ids := load_known_events w.store
       let current_event_ids := (events.map (·.id)).toFinset
       let new_event_ids := newIds current_event_ids known_event_ids
       if new_event_ids = ∅ then
         ⟨.ok (), save_known_events current_event_ids, []⟩
       else
         let new_events := events.filter (fun e => decide (e.id ∈ new_event_ids))
         match notify_email cfg w.smtpOk new_events with
         | .error e => ⟨.error e, w.store, []⟩
         | .ok msg => ⟨.ok (), save_known_events current_event_ids, [msg]⟩) := by
  simp only [runMain, h1, h2, not_true_eq_false, if_false, Bool.true_eq_false,
    if_neg, not_false_iff]

/-! ### Claim theorems -/

/-- C7: for every set of identifier strings, saving it with
`save_known_events` and loading with `load_known_events` returns exactly
that set, and the result is independent of the order in which the
identifiers were serialized (any permutation of the written array loads
back to the same set). -/
theorem save_then_load_roundtrip (s : Finset String) :
    load_known_events (save_known_events s) = s ∧
      ∀ l : List String, l.Perm ((save_known_events s).getD []) →
        load_known_events (some l) = s := by
  refine ⟨load_known_events_save s, fun l hl => ?_⟩
  have : l.toFinset = ((save_known_events s).getD []).toFinset :=
    List.toFinset_eq_of_perm _ _ hl
  simpa [load_known_events, save_known_events, Finset.sort_toFinset] using this

/-- Witness for C7 at the concrete set `{A, B}` and a reordered
serialization. -/
theorem save_then_load_roundtrip_wit :
    load_known_events (save_known_events {"A", "B"}) = {"A", "B"} ∧
      load_known_events (some ["B", "A"]) = {"A", "B"} := by
  have h := save_then_load_roundtrip {"A", "B"}
  exact ⟨h.1, h.2 ["B", "A"] (by rw [save_AB]; decide)⟩

/-- C8: loading when no persisted store file exists returns the empty
set instead of failing. -/
theorem load_missing_store_empty : load_known_events none = ∅ := rfl

/-- C1: the orchestrator diff is exactly set subtraction
`current - known`; and whenever the current ids are a subset of the
known ids the diff is empty, the run completes normally, and no
notification is sent. -/
theorem newIds_is_sdiff_and_subset_skips_notify :
    (∀ C K : Finset String, newIds C K = C \ K ∧ (C ⊆ K → newIds C K = ∅)) ∧
      ∀ (cfg : Config) (w : World) (events : List Event),
        truthy cfg.apiKey = true →
        get_artist_events w.resp = .ok events →
        (events.map (·.id)).toFinset ⊆ load_known_events w.store →
        (runMain cfg w).sent = [] ∧ (runMain cfg w).result = .ok () := by
  constructor
  · intro C K
    exact ⟨rfl, fun h => by simp [newIds, Finset.sdiff_eq_empty_iff_subset, h]⟩
  · intro cfg w events h1 h2 h3
    have hdiff : newIds ((events.map (·.id)).toFinset) (load_known_events w.store) = ∅ := by
      simpa [newIds, Finset.sdiff_eq_empty_iff_subset] using h3
    rw [runMain_ok_fetch cfg w events h1 h2]
    simp only [hdiff, if_pos rfl]
    exact ⟨rfl, rfl⟩

/-- Witness for C1: a run whose single fetched event is already known. -/
theorem newIds_is_sdiff_and_subset_skips_notify_wit :
    (runMain cfgFull ⟨some ["A"], .ok (some (some [eventA])), true⟩).sent = [] ∧
      (runMain cfgFull ⟨some ["A"], .ok (some (some [eventA])), true⟩).result = .ok () :=
  newIds_is_sdiff_and_subset_skips_notify.2 cfgFull
    ⟨some ["A"], .ok (some (some [eventA])), true⟩ [eventA]
    (by decide) rfl (by decide)

/-- C2: with persisted known set `{A}` and a fetch returning events with
ids `{A, B}`, the diff is `{B}`, exactly one notification is sent whose
body lists only event `B`, and the persisted state afterwards is
`{A, B}`. -/
theorem run_known_A_fetch_AB :
    newIds {"A", "B"} {"A"} = {"B"} ∧
      (runMain cfgFull worldAB).result = .ok () ∧
      (runMain cfgFull worldAB).sent =
        [⟨"Masayoshi Takanaka added 1 new concert!",
          "Hello! 1 new event have been added for your tracked artist:\n\n" ++
            "----------------------------------------\nEvent: Show B\n" ++
            "Date: N/A\nVenue: N/A in N/A\nLink: http://tm/b\n",
          ["r1@x.com", "r2@y.com"]⟩] ∧
      load_known_events (runMain cfgFull worldAB).store = {"A", "B"} := by
  refine ⟨by decide, rfl, by decide, ?_⟩
  rw [show (runMain cfgFull worldAB).store = save_known_events {"A", "B"} from rfl]
  exact load_known_events_save _

/-- C3 counterexample: a successful run whose fetch returns no events
overwrites the store, dropping the previously known id `A`: the saved
set is not the union of the loaded set with the fetched ids, so the
persisted set does not grow monotonically. -/
theorem saved_set_not_monotone_cex :
    (runMain cfgFull worldEmptyFetch).result = .ok () ∧
      "A" ∈ load_known_events worldEmptyFetch.store ∧
      "A" ∉ load_known_events (runMain cfgFull worldEmptyFetch).store ∧
      load_known_events (runMain cfgFull worldEmptyFetch).store ≠
        load_known_events worldEmptyFetch.store ∪
          (([] : List Event).map (·.id)).toFinset := by
  have hst : load_known_events (runMain cfgFull worldEmptyFetch).store = ∅ := by
    rw [show (runMain cfgFull worldEmptyFetch).store = save_known_events ∅ from rfl]
    exact load_known_events_save _
  refine ⟨rfl, by decide, ?_, ?_⟩
  · rw [hst]; decide
  · rw [hst]; decide

/-- C3 amended: the set persisted by a successful run is exactly the set
of ids fetched in that run (not its union with the previously known
set), so previously known ids absent from the fetch are dropped. -/
theorem saved_set_equals_fetched_ids (cfg : Config) (w : World) (events : List Event)
    (h1 : truthy cfg.apiKey = true)
    (h2 : get_artist_events w.resp = .ok events)
    (h3 : (runMain cfg w).result = .ok ()) :
    load_known_events (runMain cfg w).store = (events.map (·.id)).toFinset := by
  rw [runMain_ok_fetch cfg w events h1 h2] at h3 ⊢
  by_cases hd :
      newIds ((events.map (·.id)).toFinset) (load_known_events w.store) = ∅
  · simp only [hd, if_pos rfl]
    exact load_known_events_save _
  · simp only [if_neg hd] at h3 ⊢
    cases hne : notify_email cfg w.smtpOk
        (events.filter fun e => decide (e.id ∈
          newIds ((events.map (·.id)).toFinset) (load_known_events w.store))) with
    | error e => rw [hne] at h3; simp at h3
    | ok msg => exact load_known_events_save _

/-- Witness for the C3 amended theorem at the `{A} / {A, B}` scenario. -/
theorem saved_set_equals_fetched_ids_wit :
    load_known_events (runMain cfgFull worldAB).store =
      (([eventA, eventB].map (·.id)).toFinset : Finset String) :=
  saved_set_equals_fetched_ids cfgFull worldAB [eventA, eventB] rfl rfl rfl

/-- C5: when the event-source fetch fails (transport error or non-success
HTTP status), the error propagates out of `main`, nothing is saved (the
store is exactly what it was before the run), and no notification is
attempted. -/
theorem fetch_failure_aborts_run (cfg : Config) (w : World)
    (h1 : truthy cfg.apiKey = true) (h2 : w.resp = .httpError) :
    (runMain cfg w).result = .error .sourceError ∧
      (runMain cfg w).store = w.store ∧ (runMain cfg w).sent = [] := by
  have hrun : runMain cfg w = ⟨.error .sourceError, w.store, []⟩ := by
    unfold runMain
    rw [h2]
    simp [h1, get_artist_events]
  rw [hrun]
  exact ⟨rfl, rfl, rfl⟩

/-- Witness for C5: a run against an HTTP failure with store `{A}`. -/
theorem fetch_failure_aborts_run_wit :
    (runMain cfgFull ⟨some ["A"], .httpError, true⟩).result = .error .sourceError ∧
      (runMain cfgFull ⟨some ["A"], .httpError, true⟩).store = some ["A"] ∧
      (runMain cfgFull ⟨some ["A"], .httpError, true⟩).sent = [] :=
  fetch_failure_aborts_run cfgFull ⟨some ["A"], .httpError, true⟩ rfl rfl

/-- C9: when the diff is empty the notifier is never invoked, so a run
with every mail credential unset still completes normally and saves the
fetched ids. -/
theorem empty_diff_skips_credential_check (w : World) (events : List Event)
    (k : Option String) (h1 : truthy k = true)
    (h2 : get_artist_events w.resp = .ok events)
    (h3 : (events.map (·.id)).toFinset ⊆ load_known_events w.store) :
    (runMain ⟨k, none, none, none⟩ w).result = .ok () ∧
      (runMain ⟨k, none, none, none⟩ w).sent = [] ∧
      load_known_events (runMain ⟨k, none, none, none⟩ w).store =
        (events.map (·.id)).toFinset := by
  have hdiff : newIds ((events.map (·.id)).toFinset) (load_known_events w.store) = ∅ := by
    simpa [newIds, Finset.sdiff_eq_empty_iff_subset] using h3
  rw [runMain_ok_fetch ⟨k, none, none, none⟩ w events h1 h2]
  simp only [hdiff, if_pos rfl]
  exact ⟨rfl, rfl, load_known_events_save _⟩

/-- Witness for C9: the fetched event is already known and no mail
credential is set. -/
theorem empty_diff_skips_credential_check_wit :
    (runMain cfgNoMail ⟨some ["A"], .ok (some (some [eventA])), true⟩).result = .ok () ∧
      (runMain cfgNoMail ⟨some ["A"], .ok (some (some [eventA])), true⟩).sent = [] ∧
      load_known_events
          (runMain cfgNoMail ⟨some ["A"], .ok (some (some [eventA])), true⟩).store =
        (([eventA].map (·.id)).toFinset : Finset String) :=
  empty_diff_skips_credential_check ⟨some ["A"], .ok (some (some [eventA])), true⟩
    [eventA] (some "key") rfl rfl (by decide)

/-- C10: when the HTTP response succeeds but the body lacks the
`_embedded` key or the nested `events` list, the fetch returns the empty
list rather than an error, and the run then completes and overwrites the
persisted store with the empty set, dropping every previously known
identifier. -/
theorem missing_embedded_key_empty_overwrite (cfg : Config) (w : World)
    (h1 : truthy cfg.apiKey = true)
    (h2 : w.resp = .ok none ∨ w.resp = .ok (some none)) :
    get_artist_events w.resp = .ok [] ∧
      (runMain cfg w).result = .ok () ∧ (runMain cfg w).sent = [] ∧
      load_known_events (runMain cfg w).store = ∅ := by
  have hga : get_artist_events w.resp = .ok [] := by
    rcases h2 with h | h <;> rw [h] <;> rfl
  refine ⟨hga, ?_⟩
  rw [runMain_ok_fetch cfg w [] h1 hga]
  have hdiff : newIds ((([] : List Event).map (·.id)).toFinset)
      (load_known_events w.store) = ∅ := by
    simp [newIds]
  simp only [hdiff, if_pos rfl]
  exact ⟨rfl, rfl, load_known_events_save _⟩

/-- Witness for C10: store `{A}` and a response body without the
`_embedded` key. -/
theorem missing_embedded_key_empty_overwrite_wit :
    get_artist_events (World.mk (some ["A"]) (.ok none) true).resp = .ok [] ∧
      (runMain cfgFull ⟨some ["A"], .ok none, true⟩).result = .ok () ∧
      (runMain cfgFull ⟨some ["A"], .ok none, true⟩).sent = [] ∧
      load_known_events (runMain cfgFull ⟨some ["A"], .ok none, true⟩).store = ∅ :=
  missing_embedded_key_empty_overwrite cfgFull ⟨some ["A"], .ok none, true⟩ rfl
    (Or.inl rfl)

/-- The per-event block as §8 of the spec describes it, written
pointwise: delimiter line, event name, date with `N/A` fallback,
`venue in city` with `N/A` placeholders, and link.  The venue is the
first entry of the `venues` list, or an empty venue when the list is
absent (the code's default chain `[{}][0]`). -/
def specEventBlock (e : Event) : String :=
  "----------------------------------------\n" ++
  "Event: " ++ pyStr e.name ++ "\n" ++
  "Date: " ++ e.localDate.getD "N/A" ++ "\n" ++
  "Venue: " ++ ((e.venues.getD [⟨none, none⟩]).headD ⟨none, none⟩).name.getD "N/A" ++
    " in " ++ ((e.venues.getD [⟨none, none⟩]).headD ⟨none, none⟩).cityName.getD "N/A" ++
    "\n" ++
  "Link: " ++ pyStr e.url ++ "\n"

/-- A successful `eventDetails` produces exactly the spec's block. -/
lemma eventDetails_eq_specEventBlock (e : Event) (d : String)
    (h : eventDetails e = some d) : d = specEventBlock e := by
  unfold eventDetails at h
  cases hv : e.venues with
  | none =>
    rw [hv] at h
    simp only [Option.some.injEq] at h
    simp [specEventBlock, hv, ← h]
  | some l =>
    cases l with
    | nil => rw [hv] at h; simp at h
    | cons v vs =>
      rw [hv] at h
      simp only [List.head?, Option.some.injEq] at h
      simp [specEventBlock, hv, ← h]

/-- A successful traversal of `eventDetails` over a list is the
pointwise map of the spec's block, in the same order. -/
lemma mapM_eventDetails_eq_map (events : List Event) (details : List String)
    (h : events.mapM eventDetails = some details) :
    details = events.map specEventBlock := by
  induction events generalizing details with
  | nil =>
    simp only [List.mapM_nil, pure, Option.some.injEq] at h
    simp [← h]
  | cons e es ih =>
    rw [List.mapM_cons] at h
    cases hd : eventDetails e with
    | none => rw [hd] at h; simp at h
    | some d =>
      rw [hd] at h
      cases hds : es.mapM eventDetails with
      | none => rw [hds] at h; simp at h
      | some ds =>
        rw [hds] at h
        have hdetails : d :: ds = details := by simpa using h
        rw [← hdetails, List.map_cons,
          eventDetails_eq_specEventBlock e d hd, ih ds hds]

/-- Whenever a mail credential is falsy or the SMTP send fails,
`notify_email` raises. -/
lemma notify_email_fails (cfg : Config) (smtpOk : Bool) (evs : List Event)
    (h : truthy cfg.gmailUser = false ∨ truthy cfg.gmailAppPassword = false ∨
      truthy cfg.recipients = false ∨ smtpOk = false) :
    ∃ e, notify_email cfg smtpOk evs = .error e := by
  unfold notify_email
  by_cases hc : truthy cfg.gmailUser ∧ truthy cfg.gmailAppPassword ∧ truthy cfg.recipients
  · have hs : smtpOk = false := by
      rcases h with h | h | h | h
      · exact absurd hc.1 (by simp [h])
      · exact absurd hc.2.1 (by simp [h])
      · exact absurd hc.2.2 (by simp [h])
      · exact h
    rw [if_neg (not_not_intro hc)]
    cases hm : evs.mapM eventDetails with
    | none => exact ⟨.indexError, rfl⟩
    | some details => exact ⟨.smtpError, by simp [hs]⟩
  · exact ⟨.credsError, if_pos hc⟩

/-- C4: when the diff is non-empty and a mail credential is missing or
the send fails, the run raises before the save step, so the persisted
store is exactly what it was before the run (and nothing was sent). -/
theorem notify_failure_aborts_before_save (cfg : Config) (w : World)
    (events : List Event)
    (h1 : truthy cfg.apiKey = true)
    (h2 : get_artist_events w.resp = .ok events)
    (h3 : newIds ((events.map (·.id)).toFinset) (load_known_events w.store) ≠ ∅)
    (h4 : truthy cfg.gmailUser = false ∨ truthy cfg.gmailAppPassword = false ∨
      truthy cfg.recipients = false ∨ w.smtpOk = false) :
    (∃ e : RunError, (runMain cfg w).result = .error e) ∧
      (runMain cfg w).store = w.store ∧ (runMain cfg w).sent = [] := by
  rw [runMain_ok_fetch cfg w events h1 h2]
  simp only [if_neg h3]
  obtain ⟨e, he⟩ := notify_email_fails cfg w.smtpOk
    (events.filter fun e => decide (e.id ∈
      newIds ((events.map (·.id)).toFinset) (load_known_events w.store))) h4
  rw [he]
  exact ⟨⟨e, rfl⟩, rfl, rfl⟩

/-- Witness for C4: new event `B` with no mail credentials set; the
store keeps its pre-run contents. -/
theorem notify_failure_aborts_before_save_wit :
    ((∃ e : RunError, (runMain cfgNoMail worldAB).result = .error e) ∧
      (runMain cfgNoMail worldAB).store = some ["A"] ∧
      (runMain cfgNoMail worldAB).sent = []) :=
  notify_failure_aborts_before_save cfgNoMail worldAB [eventA, eventB] rfl rfl
    (by decide) (Or.inl rfl)

/-- C6: for every non-empty list of new events accepted by the notifier,
the built body is the greeting line followed by exactly one delimited
block per input event, in input order, each carrying the event's name,
its date or `N/A`, `venue in city` with `N/A` placeholders, and its
link. -/
theorem email_body_one_block_per_event (cfg : Config) (smtpOk : Bool)
    (events : List Event) (msg : EmailMsg)
    (hne : events ≠ [])
    (h : notify_email cfg smtpOk events = .ok msg) :
    msg.body = String.intercalate "\n"
      (bodyHeader events.length :: events.map specEventBlock) := by
  unfold notify_email at h
  by_cases hc : truthy cfg.gmailUser ∧ truthy cfg.gmailAppPassword ∧ truthy cfg.recipients
  · rw [if_neg (not_not_intro hc)] at h
    cases hm : events.mapM eventDetails with
    | none => rw [hm] at h; simp at h
    | some details =>
      rw [hm] at h
      cases hs : smtpOk with
      | false => rw [hs] at h; simp at h
      | true =>
        rw [hs] at h
        simp only [if_true, Except.ok.injEq] at h
        rw [← h, ← mapM_eventDetails_eq_map events details hm]
  · rw [if_pos hc] at h
    simp at h

/-- Witness for C6 at two concrete events (the second with every
optional field absent). -/
theorem email_body_one_block_per_event_wit :
    (⟨"Masayoshi Takanaka added 2 new concerts!",
      "Hello! 2 new events have been added for your tracked artist:\n\n" ++
        "----------------------------------------\nEvent: Show A\n" ++
        "Date: 2026-01-01\nVenue: Hall A in Tokyo\nLink: http://tm/a\n\n" ++
        "----------------------------------------\nEvent: Show B\n" ++
        "Date: N/A\nVenue: N/A in N/A\nLink: http://tm/b\n",
      ["r1@x.com", "r2@y.com"]⟩ : EmailMsg).body =
      String.intercalate "\n"
        (bodyHeader ([eventA, eventB].length) ::
          [eventA, eventB].map specEventBlock) :=
  email_body_one_block_per_event cfgFull true [eventA, eventB] _ (by decide) rfl

end EventChecker
